import Mathlib

/-!
Shallow embedding of the crisis alert and escalation engine from
src/samples/go/crisis_service.go (package crisis of the Lilo Engine sample set).

Modelling conventions:
* Time instants and durations are `Nat` seconds (Go `time.Time` / `time.Duration`).
* Go maps are association lists over `String` keys; `alSet`, `alGet`, `alDel`
  mirror map store, load and delete.
* Go `float64` confidence scores are modelled as rationals (`Rat`); no verified
  property depends on floating-point rounding, the scores are only carried.
* The Redis store (with its 7-day TTL) and the in-memory `activeAlerts` index
  are the two fields of `ServiceState`.  Every `storeAlert` updates both, as in
  the source.
* Side effects that do not touch alert state (logging, push/SMS/email sends,
  audit events, the emergency phone call) are omitted; the state transitions
  they accompany are kept.
* Concurrency is modelled by sequential interleaving: each API call, monitor
  tick or watcher firing is one atomic `Op`, executed at an explicit time.
-/

namespace Crisis

/-- CrisisLevel defines severity levels for crisis detection.  The Go type is a
string; the five declared constants become constructors.  The Go zero value ""
(reachable only for levels outside the declared ladder) is identified with
`none`: both are absent from every configuration map and from every `switch`
case, so they are observationally equal in the source. -/
inductive CrisisLevel where
  | immediate
  | urgent
  | elevated
  | moderate
  | none
deriving DecidableEq, Repr

/-- AlertStatus represents the current state of a crisis alert. -/
inductive AlertStatus where
  | active
  | acknowledged
  | inProgress
  | resolved
  | escalated
deriving DecidableEq, Repr

/-- Acknowledgment records when a care team member acknowledges an alert. -/
structure Acknowledgment where
  userID : String
  role : String
  timestamp : Nat
  notes : String
deriving DecidableEq, Repr

/-- Escalation records when an alert is escalated. -/
structure Escalation where
  fromLevel : CrisisLevel
  toLevel : CrisisLevel
  reason : String
  timestamp : Nat
  triggeredBy : String
deriving DecidableEq, Repr

/-- Values stored in an alert's clinical-context map (Go
`map[string]interface{}`); the source stores ints (assessment scores), strings
(resolution metadata) and a timestamp. -/
inductive ClinicalValue where
  | num (n : Int)
  | str (s : String)
  | time (t : Nat)
deriving DecidableEq, Repr

/-- Association-list update, mirroring a Go map store. -/
def alSet {α : Type} (k : String) (v : α) : List (String × α) → List (String × α)
  | [] => [(k, v)]
  | p :: t => if p.1 = k then (k, v) :: t else p :: alSet k v t

/-- Association-list lookup, mirroring a Go map load. -/
def alGet {α : Type} (k : String) : List (String × α) → Option α
  | [] => Option.none
  | p :: t => if p.1 = k then some p.2 else alGet k t

/-- Association-list delete, mirroring a Go map delete. -/
def alDel {α : Type} (k : String) (l : List (String × α)) : List (String × α) :=
  l.filter (fun p => !decide (p.1 = k))

instance {ε α : Type} [DecidableEq ε] [DecidableEq α] : DecidableEq (Except ε α) := fun a b =>
  match a, b with
  | Except.error e1, Except.error e2 =>
    if h : e1 = e2 then isTrue (by rw [h]) else isFalse (fun hh => h (Except.error.inj hh))
  | Except.ok v1, Except.ok v2 =>
    if h : v1 = v2 then isTrue (by rw [h]) else isFalse (fun hh => h (Except.ok.inj hh))
  | Except.error _, Except.ok _ => isFalse (fun hh => Except.noConfusion hh)
  | Except.ok _, Except.error _ => isFalse (fun hh => Except.noConfusion hh)

/-- CrisisAlert represents a detected crisis event. -/
structure CrisisAlert where
  id : String
  userID : String
  sessionID : String
  level : CrisisLevel
  confidenceScore : Rat
  triggerMessage : String
  detectedPatterns : List String
  clinicalContext : List (String × ClinicalValue)
  timestamp : Nat
  responseDeadline : Nat
  status : AlertStatus
  assignedTo : List String
  acknowledgments : List Acknowledgment
  escalations : List Escalation
deriving DecidableEq, Repr

/-- CrisisServiceConfig contains configuration for the crisis service.  The Go
duration maps become functions to `Option Nat` (seconds); a missing key is
`Option.none`. -/
structure CrisisServiceConfig where
  responseTimeouts : CrisisLevel → Option Nat
  escalationDelays : CrisisLevel → Option Nat
  maxRetries : Nat
  retryDelay : Nat
  enable911AutoCall : Bool

/-- DefaultCrisisConfig returns the regulatory-compliant default configuration
(durations in seconds). -/
def DefaultCrisisConfig : CrisisServiceConfig where
  responseTimeouts := fun l =>
    match l with
    | CrisisLevel.immediate => some 30
    | CrisisLevel.urgent => some 300
    | CrisisLevel.elevated => some 3600
    | CrisisLevel.moderate => some 86400
    | CrisisLevel.none => Option.none
  escalationDelays := fun l =>
    match l with
    | CrisisLevel.immediate => some 15
    | CrisisLevel.urgent => some 120
    | CrisisLevel.elevated => some 1800
    | CrisisLevel.moderate => some 43200
    | CrisisLevel.none => Option.none
  maxRetries := 3
  retryDelay := 5
  enable911AutoCall := true

/-- DetectionContext provides context for crisis detection (the
`RecentAssessments` free-form map, unused by the service code, is omitted). -/
structure DetectionContext where
  userID : String
  sessionID : String
  recentMessages : List String
  phq9Score : Option Int
  gad7Score : Option Int
  lifeStoryRisks : List String
deriving DecidableEq, Repr

/-- DetectionResult contains the result of crisis analysis by the fallback
local detector; only the fields read by AnalyzeMessage are modelled. -/
structure DetectionResult where
  level : CrisisLevel
  confidenceScore : Rat
  detectedPatterns : List String
  reasoning : String
deriving DecidableEq, Repr

/-- CrisisAnalysisResponse is the gRPC response from the AI-router crisis
analysis. -/
structure CrisisAnalysisResponse where
  level : CrisisLevel
  confidence : Rat
  patterns : List String
  reasoning : String
  processingTime : Nat := 0
deriving DecidableEq, Repr

/-- TeamMember represents a care team member. -/
structure TeamMember where
  userID : String
  name : String
  role : String
  phone : String
  email : String
  isOnCall : Bool
  permissions : List String
deriving DecidableEq, Repr

/-- CareTeam represents a resident's care team. -/
structure CareTeam where
  residentID : String
  facilityID : String
  members : List TeamMember
  updated : Nat
deriving DecidableEq, Repr

/-- NotificationRecipients contains recipients for notifications. -/
structure NotificationRecipients where
  userIDs : List String
  phoneNumbers : List String
  emails : List String
deriving DecidableEq, Repr

/-- One Redis record: the serialized alert plus its expiry instant (write time
plus the 7-day TTL). -/
structure StoredEntry where
  alert : CrisisAlert
  expiresAt : Nat
deriving DecidableEq, Repr

/-- The mutable state of the crisis service: the durable Redis store and the
in-memory activeAlerts index. -/
structure ServiceState where
  redisStore : List (String × StoredEntry)
  activeAlerts : List (String × CrisisAlert)
deriving DecidableEq, Repr

/-- The state of a freshly constructed service: no alerts anywhere. -/
def initState : ServiceState := { redisStore := [], activeAlerts := [] }

/-- Storage TTL used by storeAlert: 7 days, in seconds. -/
def alertTTL : Nat := 604800

/-- storeAlert stores an alert in Redis with the 7-day TTL and adds it to the
active alerts map (crisis_service.go lines 699-716). -/
def storeAlert (now : Nat) (a : CrisisAlert) (st : ServiceState) : ServiceState :=
  { redisStore := alSet a.id { alert := a, expiresAt := now + alertTTL } st.redisStore,
    activeAlerts := alSet a.id a st.activeAlerts }

/-- GetAlert retrieves an alert by ID from Redis (lines 646-663).  An expired
key behaves exactly like a missing one (redis.Nil), yielding the
"alert not found" error. -/
def GetAlert (now : Nat) (alertID : String) (st : ServiceState) : Except String CrisisAlert :=
  match alGet alertID st.redisStore with
  | Option.none => Except.error "alert not found"
  | some e => if now < e.expiresAt then Except.ok e.alert else Except.error "alert not found"

/-- AnalyzeMessage analyzes a message for crisis indicators (lines 292-375).
The AI-router call and the fallback detector call are inputs (their outcomes
are decided by external collaborators); `newId` stands for the generated UUID.
The asynchronous initiateResponse fan-out performs no alert-state transition
modelled here and is omitted. -/
def AnalyzeMessage (cfg : CrisisServiceConfig) (now : Nat) (newId : String)
    (message : String) (detectionCtx : DetectionContext)
    (router : Except String CrisisAnalysisResponse)
    (fallback : Except String DetectionResult)
    (st : ServiceState) : Except String (Option CrisisAlert × ServiceState) :=
  let resp : Except String CrisisAnalysisResponse :=
    match router with
    | Except.ok r => Except.ok r
    | Except.error _ =>
      match fallback with
      | Except.error e => Except.error ("crisis detection failed: " ++ e)
      | Except.ok r =>
        Except.ok { level := r.level, confidence := r.confidenceScore,
                    patterns := r.detectedPatterns, reasoning := r.reasoning }
  match resp with
  | Except.error e => Except.error e
  | Except.ok response =>
    if response.level = CrisisLevel.none then
      Except.ok (Option.none, st)
    else
      let alert0 : CrisisAlert :=
        { id := newId, userID := detectionCtx.userID, sessionID := detectionCtx.sessionID,
          level := response.level, confidenceScore := response.confidence,
          triggerMessage := message, detectedPatterns := response.patterns,
          clinicalContext := [], timestamp := now, responseDeadline := 0,
          status := AlertStatus.active, assignedTo := [],
          acknowledgments := [], escalations := [] }
      let alert1 :=
        match cfg.responseTimeouts response.level with
        | some t => { alert0 with responseDeadline := now + t }
        | Option.none => alert0
      let alert2 :=
        match detectionCtx.phq9Score with
        | some v => { alert1 with clinicalContext := alSet "phq9_score" (ClinicalValue.num v) alert1.clinicalContext }
        | Option.none => alert1
      let alert3 :=
        match detectionCtx.gad7Score with
        | some v => { alert2 with clinicalContext := alSet "gad7_score" (ClinicalValue.num v) alert2.clinicalContext }
        | Option.none => alert2
      Except.ok (some alert3, storeAlert now alert3 st)

/-- AcknowledgeAlert records an acknowledgment for an alert (lines 557-606). -/
def AcknowledgeAlert (now : Nat) (alertID userID role notes : String)
    (st : ServiceState) : Except String ServiceState :=
  match GetAlert now alertID st with
  | Except.error e => Except.error e
  | Except.ok alert =>
    if alert.status ≠ AlertStatus.active ∧ alert.status ≠ AlertStatus.acknowledged then
      Except.error "alert is not in an acknowledgeable state"
    else
      let ack : Acknowledgment := { userID := userID, role := role, timestamp := now, notes := notes }
      let alert1 := { alert with
        acknowledgments := alert.acknowledgments ++ [ack],
        status := AlertStatus.acknowledged }
      Except.ok (storeAlert now alert1 st)

/-- ResolveAlert marks an alert as resolved (lines 608-644); no status
eligibility check appears in the source.  storeAlert re-adds the alert to the
activeAlerts map, and the subsequent Delete removes it again. -/
def ResolveAlert (now : Nat) (alertID userID resolution : String)
    (st : ServiceState) : Except String ServiceState :=
  match GetAlert now alertID st with
  | Except.error e => Except.error e
  | Except.ok alert =>
    let alert1 := { alert with
      status := AlertStatus.resolved,
      clinicalContext :=
        alSet "resolved_at" (ClinicalValue.time now)
          (alSet "resolved_by" (ClinicalValue.str userID)
            (alSet "resolution" (ClinicalValue.str resolution) alert.clinicalContext)) }
    let st1 := storeAlert now alert1 st
    Except.ok { st1 with activeAlerts := alDel alertID st1.activeAlerts }

/-- GetActiveAlerts retrieves all alerts whose stored status is ACTIVE or
ACKNOWLEDGED (lines 665-697).  The facility-wide key pattern is modelled (the
user-scoped pattern of the source matches no key ever written, since keys are
always crisis:alert:ID); expired keys are absent from the KEYS scan. -/
def GetActiveAlerts (now : Nat) (st : ServiceState) : List CrisisAlert :=
  (st.redisStore.filter (fun p => decide (now < p.2.expiresAt))).filterMap
    (fun p =>
      if p.2.alert.status = AlertStatus.active ∨ p.2.alert.status = AlertStatus.acknowledged then
        some p.2.alert
      else Option.none)

/-- recordEscalation records an escalation event (lines 718-747): it appends
the Escalation record, sets the status to ESCALATED and persists.  It returns
the updated alert (the Go code mutates it through a pointer). -/
def recordEscalation (now : Nat) (alert : CrisisAlert) (fromLevel toLevel : CrisisLevel)
    (reason triggeredBy : String) (st : ServiceState) : CrisisAlert × ServiceState :=
  let escalation : Escalation :=
    { fromLevel := fromLevel, toLevel := toLevel, reason := reason,
      timestamp := now, triggeredBy := triggeredBy }
  let alert1 := { alert with
    escalations := alert.escalations ++ [escalation],
    status := AlertStatus.escalated }
  (alert1, storeAlert now alert1 st)

/-- The severity ladder of escalateAlert's switch (lines 790-803).  A level
with no switch case (the zero value, identified with `none`) is unchanged,
matching the Go zero-value fallthrough. -/
def nextLevel : CrisisLevel → CrisisLevel
  | CrisisLevel.moderate => CrisisLevel.elevated
  | CrisisLevel.elevated => CrisisLevel.urgent
  | CrisisLevel.urgent => CrisisLevel.immediate
  | CrisisLevel.immediate => CrisisLevel.immediate
  | CrisisLevel.none => CrisisLevel.none

/-- escalateAlert escalates an alert to the next level (lines 789-814).  After
recordEscalation persists the record, the level and deadline mutations happen
on the in-memory pointer only: the activeAlerts map sees them, the Redis copy
keeps the pre-escalation level until the next store, exactly as in the
source. -/
def escalateAlert (cfg : CrisisServiceConfig) (now : Nat) (alert : CrisisAlert)
    (st : ServiceState) : ServiceState :=
  let nl := nextLevel alert.level
  let r := recordEscalation now alert alert.level nl "Response deadline exceeded" "auto" st
  let alert2 := { r.1 with
    level := nl,
    responseDeadline :=
      match cfg.responseTimeouts nl with
      | some t => now + t
      | Option.none => r.1.responseDeadline }
  { r.2 with activeAlerts := alSet alert.id alert2 r.2.activeAlerts }

/-- The per-entry body of checkEscalations' Range callback (lines 766-786):
skip unless ACTIVE; escalate when the deadline has passed with zero
acknowledgments. -/
def checkEscalationsStep (cfg : CrisisServiceConfig) (now : Nat) (acc : ServiceState)
    (p : String × CrisisAlert) : ServiceState :=
  if p.2.status = AlertStatus.active ∧ p.2.responseDeadline < now ∧ p.2.acknowledgments = [] then
    escalateAlert cfg now p.2 acc
  else acc

/-- checkEscalations checks all active alerts for escalation (lines 764-787):
one EscalationMonitor tick.  The Range callback sees each entry of the index
as it was when the tick started; escalations performed during the sweep thread
through the state. -/
def checkEscalations (cfg : CrisisServiceConfig) (now : Nat) (st : ServiceState) : ServiceState :=
  st.activeAlerts.foldl (checkEscalationsStep cfg now) st

/-- monitorFor911Escalation, at its firing instant after the escalation delay
(lines 496-526): re-fetches the alert and, if still ACTIVE with no
acknowledgments, records the IMMEDIATE-to-IMMEDIATE escalation.  The Go code
appends to the alert pointer captured at spawn time; under this sequential
semantics the guard (the stored alert is still ACTIVE with no
acknowledgments) implies no operation has replaced that pointer, so the
captured alert and the fetched one coincide and the model records on the
fetched alert. -/
def monitorFor911Escalation (now : Nat) (alertID : String) (st : ServiceState) : ServiceState :=
  match GetAlert now alertID st with
  | Except.error _ => st
  | Except.ok current =>
    if current.status = AlertStatus.active ∧ current.acknowledgments = [] then
      (recordEscalation now current CrisisLevel.immediate CrisisLevel.immediate
        "No acknowledgment within deadline" "auto" st).2
    else st

/-- alertCleanup's per-tick body (lines 816-835): drop from the in-memory map
every resolved alert older than 24 hours. -/
def alertCleanup (now : Nat) (st : ServiceState) : ServiceState :=
  let keep : String × CrisisAlert → Bool := fun p =>
    !decide (p.2.status = AlertStatus.resolved ∧ p.2.timestamp + 86400 < now)
  { st with activeAlerts := st.activeAlerts.filter keep }

/-- The per-member body of determineRecipients' loop: the switch over the
alert's crisis level (lines 460-491). -/
def determineRecipientsStep (alert : CrisisAlert) (r : NotificationRecipients)
    (member : TeamMember) : NotificationRecipients :=
  match alert.level with
  | CrisisLevel.immediate =>
    { r with
      userIDs := r.userIDs ++ [member.userID],
      phoneNumbers :=
        if member.phone ≠ "" then r.phoneNumbers ++ [member.phone] else r.phoneNumbers,
      emails := r.emails ++ [member.email] }
  | CrisisLevel.urgent =>
    if member.role = "physician" ∨ member.role = "nurse" ∨ member.role = "social_worker" then
      { r with
        userIDs := r.userIDs ++ [member.userID],
        phoneNumbers :=
          if member.phone ≠ "" then r.phoneNumbers ++ [member.phone] else r.phoneNumbers }
    else r
  | CrisisLevel.elevated =>
    if member.role = "physician" ∨ member.role = "social_worker" then
      { r with userIDs := r.userIDs ++ [member.userID] }
    else r
  | CrisisLevel.moderate =>
    if member.role = "care_manager" then
      { r with userIDs := r.userIDs ++ [member.userID] }
    else r
  | CrisisLevel.none => r

/-- determineRecipients determines who should be notified based on crisis
level (lines 447-494). -/
def determineRecipients (alert : CrisisAlert) (careTeam : Option CareTeam) : NotificationRecipients :=
  let base : NotificationRecipients := { userIDs := [], phoneNumbers := [], emails := [] }
  match careTeam with
  | Option.none => base
  | some team => team.members.foldl (determineRecipientsStep alert) base

/-- One externally observable event against the service, with the collaborator
outcomes it depends on. -/
inductive Op where
  | analyze (newId message : String) (detectionCtx : DetectionContext)
      (router : Except String CrisisAnalysisResponse)
      (fallback : Except String DetectionResult)
  | acknowledge (alertID userID role notes : String)
  | resolve (alertID userID resolution : String)
  | escalationTick
  | watch911 (alertID : String)
  | cleanup

/-- Execute one operation at time `now`; API errors leave the state
unchanged (they are returned to the caller, not applied). -/
def step (cfg : CrisisServiceConfig) (now : Nat) (op : Op) (st : ServiceState) : ServiceState :=
  match op with
  | Op.analyze newId message detectionCtx router fallback =>
    match AnalyzeMessage cfg now newId message detectionCtx router fallback st with
    | Except.ok r => r.2
    | Except.error _ => st
  | Op.acknowledge alertID userID role notes =>
    match AcknowledgeAlert now alertID userID role notes st with
    | Except.ok st1 => st1
    | Except.error _ => st
  | Op.resolve alertID userID resolution =>
    match ResolveAlert now alertID userID resolution st with
    | Except.ok st1 => st1
    | Except.error _ => st
  | Op.escalationTick => checkEscalations cfg now st
  | Op.watch911 alertID => monitorFor911Escalation now alertID st
  | Op.cleanup => alertCleanup now st

/-- Run a timed sequence of operations. -/
def run (cfg : CrisisServiceConfig) : List (Nat × Op) → ServiceState → ServiceState
  | [], st => st
  | e :: rest, st => run cfg rest (step cfg e.1 e.2 st)

/-! Association-list lemmas. -/

theorem alGet_alSet_self {α : Type} (k : String) (v : α) (l : List (String × α)) :
    alGet k (alSet k v l) = some v := by
  induction l with
  | nil => simp [alSet, alGet]
  | cons p t ih =>
    by_cases h : p.1 = k
    · simp [alSet, h, alGet]
    · simp [alSet, h, alGet, ih]

theorem alGet_alSet_ne {α : Type} {k k' : String} (v : α) (l : List (String × α))
    (h : k' ≠ k) : alGet k' (alSet k v l) = alGet k' l := by
  induction l with
  | nil => simp [alSet, alGet, h, Ne.symm h]
  | cons p t ih =>
    by_cases hp : p.1 = k
    · have hk' : ¬ p.1 = k' := fun hc => h (hc ▸ hp)
      simp [alSet, hp, alGet, Ne.symm h, hk']
    · simp [alSet, hp, alGet, ih]

theorem mem_alSet {α : Type} {p : String × α} {k : String} {v : α} {l : List (String × α)}
    (h : p ∈ alSet k v l) : p = (k, v) ∨ p ∈ l := by
  induction l with
  | nil => simpa [alSet] using h
  | cons q t ih =>
    by_cases hq : q.1 = k
    · simp only [alSet, if_pos hq, List.mem_cons] at h
      rcases h with h | h
      · exact Or.inl h
      · exact Or.inr (List.mem_cons_of_mem _ h)
    · simp only [alSet, if_neg hq, List.mem_cons] at h
      rcases h with h | h
      · exact Or.inr (h ▸ List.mem_cons_self _ _)
      · rcases ih h with h1 | h1
        · exact Or.inl h1
        · exact Or.inr (List.mem_cons_of_mem _ h1)

theorem mem_alDel {α : Type} {p : String × α} {k : String} {l : List (String × α)}
    (h : p ∈ alDel k l) : p ∈ l :=
  List.mem_of_mem_filter h

theorem alGet_alDel_self {α : Type} (k : String) (l : List (String × α)) :
    alGet k (alDel k l) = Option.none := by
  induction l with
  | nil => simp [alDel, alGet]
  | cons p t ih =>
    by_cases hp : p.1 = k
    · simpa [alDel, hp] using ih
    · simpa [alDel, alGet, hp] using ih

theorem alGet_alDel_ne {α : Type} {k k' : String} (l : List (String × α))
    (h : k' ≠ k) : alGet k' (alDel k l) = alGet k' l := by
  induction l with
  | nil => simp [alDel, alGet]
  | cons p t ih =>
    by_cases hp : p.1 = k
    · have hk' : ¬ p.1 = k' := fun hc => h (hc ▸ hp)
      simpa [alDel, List.filter_cons, hp, alGet, hk', h, Ne.symm h] using ih
    · by_cases hp2 : p.1 = k'
      · simp [alDel, List.filter_cons, hp, alGet, hp2, h, Ne.symm h]
      · simpa [alDel, List.filter_cons, hp, alGet, hp2, h, Ne.symm h] using ih

theorem mem_keys_alSet {α : Type} {x k : String} {v : α} {l : List (String × α)}
    (h : x ∈ (alSet k v l).map Prod.fst) : x = k ∨ x ∈ l.map Prod.fst := by
  rcases List.mem_map.mp h with ⟨p, hp, hx⟩
  subst hx
  rcases mem_alSet hp with h1 | h1
  · left
    rw [h1]
  · exact Or.inr (List.mem_map_of_mem Prod.fst h1)

theorem nodup_keys_alSet {α : Type} {k : String} {v : α} {l : List (String × α)}
    (h : (l.map Prod.fst).Nodup) : ((alSet k v l).map Prod.fst).Nodup := by
  induction l with
  | nil => simp [alSet]
  | cons p t ih =>
    simp only [List.map_cons, List.nodup_cons] at h
    by_cases hp : p.1 = k
    · subst hp
      simpa [alSet, List.nodup_cons] using h
    · have ht := ih h.2
      simp only [alSet, if_neg hp, List.map_cons, List.nodup_cons]
      refine ⟨fun hmem => ?_, ht⟩
      rcases mem_keys_alSet hmem with h1 | h1
      · exact hp h1
      · exact h.1 h1

theorem alGet_eq_some_of_mem {α : Type} {p : String × α} {l : List (String × α)}
    (hnd : (l.map Prod.fst).Nodup) (hp : p ∈ l) : alGet p.1 l = some p.2 := by
  induction l with
  | nil => cases hp
  | cons q t ih =>
    simp only [List.map_cons, List.nodup_cons] at hnd
    rcases List.mem_cons.mp hp with h | h
    · subst h
      simp [alGet]
    · by_cases hq : q.1 = p.1
      · exact absurd (hq ▸ List.mem_map_of_mem Prod.fst h) hnd.1
      · simpa [alGet, hq] using ih hnd.2 h

theorem mem_of_alGet {α : Type} {k : String} {v : α} {l : List (String × α)}
    (h : alGet k l = some v) : (k, v) ∈ l := by
  induction l with
  | nil => simp [alGet] at h
  | cons q t ih =>
    by_cases hq : q.1 = k
    · simp only [alGet, if_pos hq, Option.some.injEq] at h
      have : q = (k, v) := Prod.ext hq h
      exact this ▸ List.mem_cons_self _ _
    · simp only [alGet, if_neg hq] at h
      exact List.mem_cons_of_mem _ (ih h)

theorem alGet_eq_none_iff {α : Type} {k : String} {l : List (String × α)} :
    alGet k l = Option.none ↔ ∀ p ∈ l, p.1 ≠ k := by
  induction l with
  | nil => simp [alGet]
  | cons q t ih =>
    by_cases hq : q.1 = k
    · simp [alGet, hq]
    · simp only [alGet, if_neg hq, ih, List.mem_cons]
      constructor
      · intro h p hp
        rcases hp with hp | hp
        · exact hp ▸ hq
        · exact h p hp
      · intro h p hp
        exact h p (Or.inr hp)

theorem alGet_filter_none {α : Type} {k : String} {q : String × α → Bool}
    {l : List (String × α)} (h : alGet k l = Option.none) :
    alGet k (l.filter q) = Option.none := by
  rw [alGet_eq_none_iff] at h ⊢
  exact fun p hp => h p (List.mem_of_mem_filter hp)

theorem alGet_filter_some {α : Type} {k : String} {v : α} {q : String × α → Bool}
    {l : List (String × α)} (hnd : (l.map Prod.fst).Nodup)
    (h : alGet k (l.filter q) = some v) : alGet k l = some v :=
  alGet_eq_some_of_mem hnd (List.mem_of_mem_filter (mem_of_alGet h))

/-! Inversion helpers for AnalyzeMessage. -/

/-- Characterization of every alert returned by AnalyzeMessage: its severity
is not NONE, its creation data are as constructed at lines 328-344, and the
resulting state stores exactly that alert. -/
theorem analyzeMessage_ok_some (cfg : CrisisServiceConfig) (now : Nat) (newId message : String)
    (dctx : DetectionContext) (router : Except String CrisisAnalysisResponse)
    (fallback : Except String DetectionResult) (st : ServiceState)
    (alert : CrisisAlert) (st1 : ServiceState)
    (h : AnalyzeMessage cfg now newId message dctx router fallback st =
      Except.ok (some alert, st1)) :
    alert.level ≠ CrisisLevel.none ∧
    alert.id = newId ∧
    alert.timestamp = now ∧
    alert.status = AlertStatus.active ∧
    alert.acknowledgments = [] ∧
    alert.escalations = [] ∧
    (∀ t, cfg.responseTimeouts alert.level = some t → alert.responseDeadline = now + t) ∧
    st1 = storeAlert now alert st := by
  unfold AnalyzeMessage at h
  rcases router with e | r
  · rcases fallback with e2 | r2
    · simp at h
    · simp only [] at h
      split at h
      · simp_all
      · rename_i hne
        rcases ht : cfg.responseTimeouts r2.level with _ | t <;>
          rcases hp : dctx.phq9Score with _ | v1 <;>
          rcases hg : dctx.gad7Score with _ | v2
        all_goals
          (simp only [ht, hp, hg, Except.ok.injEq, Prod.mk.injEq, Option.some.injEq] at h;
           obtain ⟨ha, hs⟩ := h;
           subst ha; subst hs;
           refine ⟨hne, rfl, rfl, rfl, rfl, rfl, ?_, rfl⟩;
           intro t1 ht1;
           simp [ht] at ht1 <;> simp_all)
  · simp only [] at h
    split at h
    · simp_all
    · rename_i hne
      rcases ht : cfg.responseTimeouts r.level with _ | t <;>
        rcases hp : dctx.phq9Score with _ | v1 <;>
        rcases hg : dctx.gad7Score with _ | v2
      all_goals
        (simp only [ht, hp, hg, Except.ok.injEq, Prod.mk.injEq, Option.some.injEq] at h;
         obtain ⟨ha, hs⟩ := h;
         subst ha; subst hs;
         refine ⟨hne, rfl, rfl, rfl, rfl, rfl, ?_, rfl⟩;
         intro t1 ht1;
         simp [ht] at ht1 <;> simp_all)

/-- C2: for every alert returned by AnalyzeMessage under the default
configuration, the response deadline equals the creation timestamp plus the
configured response timeout for the alert's initial severity. -/
theorem analyzeMessage_deadline_eq_creation_plus_timeout
    (now : Nat) (newId message : String) (dctx : DetectionContext)
    (router : Except String CrisisAnalysisResponse) (fallback : Except String DetectionResult)
    (st : ServiceState) (alert : CrisisAlert) (st1 : ServiceState)
    (h : AnalyzeMessage DefaultCrisisConfig now newId message dctx router fallback st =
      Except.ok (some alert, st1)) :
    ∃ t, DefaultCrisisConfig.responseTimeouts alert.level = some t ∧
      alert.timestamp = now ∧
      alert.responseDeadline = alert.timestamp + t := by
  obtain ⟨hne, _, hts, _, _, _, hdl, _⟩ :=
    analyzeMessage_ok_some DefaultCrisisConfig now newId message dctx router fallback st alert st1 h
  cases hl : alert.level with
  | immediate => exact ⟨30, rfl, hts, by rw [hts]; exact hdl 30 (by rw [hl]; rfl)⟩
  | urgent => exact ⟨300, rfl, hts, by rw [hts]; exact hdl 300 (by rw [hl]; rfl)⟩
  | elevated => exact ⟨3600, rfl, hts, by rw [hts]; exact hdl 3600 (by rw [hl]; rfl)⟩
  | moderate => exact ⟨86400, rfl, hts, by rw [hts]; exact hdl 86400 (by rw [hl]; rfl)⟩
  | none => exact absurd hl hne

/-- C9: AnalyzeMessage propagates a detection-failure error exactly when both
the AI-router call and the fallback detector call fail, and a NONE
classification (from either path) yields no alert and leaves the state
untouched (nothing persisted). -/
theorem analyzeMessage_failure_and_none (cfg : CrisisServiceConfig) (now : Nat)
    (newId message : String) (dctx : DetectionContext)
    (router : Except String CrisisAnalysisResponse)
    (fallback : Except String DetectionResult) (st : ServiceState) :
    ((∃ e, AnalyzeMessage cfg now newId message dctx router fallback st = Except.error e) ↔
      ((∃ e0, router = Except.error e0) ∧ (∃ e1, fallback = Except.error e1))) ∧
    (∀ r, router = Except.ok r → r.level = CrisisLevel.none →
      AnalyzeMessage cfg now newId message dctx router fallback st =
        Except.ok (Option.none, st)) ∧
    (∀ e0 r, router = Except.error e0 → fallback = Except.ok r →
      r.level = CrisisLevel.none →
      AnalyzeMessage cfg now newId message dctx router fallback st =
        Except.ok (Option.none, st)) := by
  refine ⟨?_, ?_, ?_⟩
  · constructor
    · rintro ⟨e, he⟩
      unfold AnalyzeMessage at he
      rcases router with e0 | r
      · rcases fallback with e1 | r1
        · exact ⟨⟨e0, rfl⟩, ⟨e1, rfl⟩⟩
        · simp only [] at he
          split at he <;> simp at he
      · simp only [] at he
        split at he <;> simp at he
    · rintro ⟨⟨e0, he0⟩, ⟨e1, he1⟩⟩
      subst he0; subst he1
      exact ⟨"crisis detection failed: " ++ e1, rfl⟩
  · rintro r rfl hlev
    unfold AnalyzeMessage
    simp [hlev]
  · rintro e0 r rfl rfl hlev
    unfold AnalyzeMessage
    simp [hlev]

/-- C3: escalating an ACTIVE alert past its deadline with no acknowledgments
yields, in the open-alert index, the alert at the next tier of the fixed
ladder, with the new Escalation record appended and the deadline recomputed
from the escalation instant using the new severity's timeout. -/
theorem escalateAlert_next_tier (cfg : CrisisServiceConfig) (now : Nat)
    (a : CrisisAlert) (st : ServiceState) (t : Nat)
    (hstatus : a.status = AlertStatus.active)
    (hdeadline : a.responseDeadline < now)
    (hacks : a.acknowledgments = [])
    (ht : cfg.responseTimeouts (nextLevel a.level) = some t) :
    ∃ a2, alGet a.id (escalateAlert cfg now a st).activeAlerts = some a2 ∧
      a2.level = nextLevel a.level ∧
      a2.status = AlertStatus.escalated ∧
      a2.escalations = a.escalations ++
        [{ fromLevel := a.level, toLevel := nextLevel a.level,
           reason := "Response deadline exceeded", timestamp := now,
           triggeredBy := "auto" }] ∧
      a2.responseDeadline = now + t ∧
      nextLevel CrisisLevel.moderate = CrisisLevel.elevated ∧
      nextLevel CrisisLevel.elevated = CrisisLevel.urgent ∧
      nextLevel CrisisLevel.urgent = CrisisLevel.immediate ∧
      nextLevel CrisisLevel.immediate = CrisisLevel.immediate := by
  unfold escalateAlert recordEscalation storeAlert
  refine ⟨_, alGet_alSet_self _ _ _, rfl, rfl, rfl, ?_, rfl, rfl, rfl, rfl⟩
  simp [ht]

/-- C5: acknowledging fails with the InvalidState error exactly when the
alert's status is neither ACTIVE nor ACKNOWLEDGED; a success appends exactly
one Acknowledgment and sets the status to ACKNOWLEDGED, so a second
acknowledgment of the same alert also succeeds and appends a second record,
while acknowledging a RESOLVED alert fails. -/
theorem acknowledgeAlert_state_rules (now now2 : Nat)
    (alertID userID role notes userID2 role2 notes2 : String)
    (st : ServiceState) (a : CrisisAlert)
    (hget : GetAlert now alertID st = Except.ok a) :
    ((AcknowledgeAlert now alertID userID role notes st =
        Except.error "alert is not in an acknowledgeable state") ↔
      ¬(a.status = AlertStatus.active ∨ a.status = AlertStatus.acknowledged)) ∧
    (∀ st1, AcknowledgeAlert now alertID userID role notes st = Except.ok st1 →
      st1 = storeAlert now
        { a with
          acknowledgments := a.acknowledgments ++
            [{ userID := userID, role := role, timestamp := now, notes := notes }],
          status := AlertStatus.acknowledged } st) ∧
    (a.status = AlertStatus.resolved →
      AcknowledgeAlert now alertID userID role notes st =
        Except.error "alert is not in an acknowledgeable state") ∧
    (now2 < now + alertTTL →
      ∀ st1, AcknowledgeAlert now alertID userID role notes st = Except.ok st1 →
        ∃ st2, AcknowledgeAlert now2 a.id userID2 role2 notes2 st1 = Except.ok st2 ∧
          ∃ e, alGet a.id st2.redisStore = some e ∧
            e.alert.status = AlertStatus.acknowledged ∧
            e.alert.acknowledgments = a.acknowledgments ++
              [{ userID := userID, role := role, timestamp := now, notes := notes },
               { userID := userID2, role := role2, timestamp := now2, notes := notes2 }]) := by
  have hmain : AcknowledgeAlert now alertID userID role notes st =
      if a.status ≠ AlertStatus.active ∧ a.status ≠ AlertStatus.acknowledged then
        Except.error "alert is not in an acknowledgeable state"
      else
        Except.ok (storeAlert now
          { a with
            acknowledgments := a.acknowledgments ++
              [{ userID := userID, role := role, timestamp := now, notes := notes }],
            status := AlertStatus.acknowledged } st) := by
    unfold AcknowledgeAlert
    rw [hget]
  refine ⟨?_, ?_, ?_, ?_⟩
  · rw [hmain]
    by_cases hc : a.status = AlertStatus.active ∨ a.status = AlertStatus.acknowledged
    · have hCnot : ¬(a.status ≠ AlertStatus.active ∧ a.status ≠ AlertStatus.acknowledged) := by
        tauto
      rw [if_neg hCnot]
      simp [hc]
    · have hC : a.status ≠ AlertStatus.active ∧ a.status ≠ AlertStatus.acknowledged := by
        tauto
      rw [if_pos hC]
      simp [hc]
  · intro st1 h1
    rw [hmain] at h1
    by_cases hC : a.status ≠ AlertStatus.active ∧ a.status ≠ AlertStatus.acknowledged
    · rw [if_pos hC] at h1
      cases h1
    · rw [if_neg hC] at h1
      exact (Except.ok.inj h1).symm
  · intro hres
    rw [hmain, if_pos]
    exact ⟨by simp [hres], by simp [hres]⟩
  · intro hlt st1 h1
    rw [hmain] at h1
    by_cases hC : a.status ≠ AlertStatus.active ∧ a.status ≠ AlertStatus.acknowledged
    · rw [if_pos hC] at h1
      cases h1
    · rw [if_neg hC] at h1
      have hst1 : st1 = storeAlert now
          { a with
            acknowledgments := a.acknowledgments ++
              [{ userID := userID, role := role, timestamp := now, notes := notes }],
            status := AlertStatus.acknowledged } st := (Except.ok.inj h1).symm
      subst hst1
      have hget2 : GetAlert now2 a.id (storeAlert now
          { a with
            acknowledgments := a.acknowledgments ++
              [{ userID := userID, role := role, timestamp := now, notes := notes }],
            status := AlertStatus.acknowledged } st) = Except.ok
          { a with
            acknowledgments := a.acknowledgments ++
              [{ userID := userID, role := role, timestamp := now, notes := notes }],
            status := AlertStatus.acknowledged } := by
        unfold GetAlert storeAlert
        rw [alGet_alSet_self]
        simp [hlt]
      have hmain2 : AcknowledgeAlert now2 a.id userID2 role2 notes2 (storeAlert now
          { a with
            acknowledgments := a.acknowledgments ++
              [{ userID := userID, role := role, timestamp := now, notes := notes }],
            status := AlertStatus.acknowledged } st) = Except.ok (storeAlert now2
          { a with
            acknowledgments := (a.acknowledgments ++
              [{ userID := userID, role := role, timestamp := now, notes := notes }]) ++
              [{ userID := userID2, role := role2, timestamp := now2, notes := notes2 }],
            status := AlertStatus.acknowledged }
          (storeAlert now
            { a with
              acknowledgments := a.acknowledgments ++
                [{ userID := userID, role := role, timestamp := now, notes := notes }],
              status := AlertStatus.acknowledged } st)) := by
        unfold AcknowledgeAlert
        rw [hget2]
        simp
      exact ⟨_, hmain2, _, alGet_alSet_self _ _ _, rfl, by simp⟩

/-- A concrete already-resolved alert used to exhibit ResolveAlert's missing
status check. -/
def resolvedAlertSample : CrisisAlert :=
  { id := "a1", userID := "u1", sessionID := "s1", level := CrisisLevel.moderate,
    confidenceScore := 1, triggerMessage := "m", detectedPatterns := [],
    clinicalContext := [], timestamp := 0, responseDeadline := 86400,
    status := AlertStatus.resolved, assignedTo := [], acknowledgments := [],
    escalations := [] }

/-- A service state holding only the resolved sample alert. -/
def resolvedStateSample : ServiceState :=
  { redisStore := [("a1", { alert := resolvedAlertSample, expiresAt := 604800 })],
    activeAlerts := [] }

/-- C6 counterexample: ResolveAlert on an alert that is already RESOLVED (an
ineligible status for the claimed check) returns success, not an InvalidState
error. -/
theorem resolveAlert_on_resolved_succeeds :
    ((GetAlert 10 "a1" resolvedStateSample).toOption.map CrisisAlert.status =
      some AlertStatus.resolved) ∧
    (ResolveAlert 10 "a1" "u2" "again" resolvedStateSample).isOk = true := by
  decide

/-- C6 amended: ResolveAlert performs no status-eligibility check.  On every
existing (unexpired) alert, whatever its status — including one already
RESOLVED — it succeeds, stores the alert with status RESOLVED and removes it
from the open-alert index; the only caller-visible error is the not-found
error from the alert lookup. -/
theorem resolveAlert_succeeds_on_any_existing (now : Nat)
    (alertID userID resolution : String) (st : ServiceState) (a : CrisisAlert)
    (hget : GetAlert now alertID st = Except.ok a) :
    ∃ st1, ResolveAlert now alertID userID resolution st = Except.ok st1 ∧
      (∃ e, alGet a.id st1.redisStore = some e ∧ e.alert.status = AlertStatus.resolved) ∧
      alGet alertID st1.activeAlerts = Option.none := by
  unfold ResolveAlert
  rw [hget]
  exact ⟨_, rfl, ⟨_, alGet_alSet_self _ _ _, rfl⟩, alGet_alDel_self _ _⟩

/-- The recipient-selection rule of determineRecipients restricted to user
IDs: which member user IDs the switch of lines 460-491 appends at each
level. -/
def recipientSelector (l : CrisisLevel) (m : TeamMember) : Option String :=
  match l with
  | CrisisLevel.immediate => some m.userID
  | CrisisLevel.urgent =>
    if m.role = "physician" ∨ m.role = "nurse" ∨ m.role = "social_worker" then
      some m.userID
    else Option.none
  | CrisisLevel.elevated =>
    if m.role = "physician" ∨ m.role = "social_worker" then some m.userID else Option.none
  | CrisisLevel.moderate =>
    if m.role = "care_manager" then some m.userID else Option.none
  | CrisisLevel.none => Option.none

theorem determineRecipientsStep_userIDs (alert : CrisisAlert) (r : NotificationRecipients)
    (m : TeamMember) :
    (determineRecipientsStep alert r m).userIDs =
      r.userIDs ++ (recipientSelector alert.level m).toList := by
  cases h : alert.level <;>
    simp only [determineRecipientsStep, recipientSelector, h] <;>
    [skip;
     by_cases hg : m.role = "physician" ∨ m.role = "nurse" ∨ m.role = "social_worker";
     by_cases hg : m.role = "physician" ∨ m.role = "social_worker";
     by_cases hg : m.role = "care_manager";
     simp] <;>
    simp_all

theorem foldl_recipients_userIDs (alert : CrisisAlert) (ms : List TeamMember)
    (r : NotificationRecipients) :
    (ms.foldl (determineRecipientsStep alert) r).userIDs =
      r.userIDs ++ ms.filterMap (recipientSelector alert.level) := by
  induction ms generalizing r with
  | nil => simp
  | cons m ms ih =>
    rw [List.foldl_cons, ih, determineRecipientsStep_userIDs, List.filterMap_cons]
    cases recipientSelector alert.level m <;> simp

theorem determineRecipients_userIDs (alert : CrisisAlert) (team : CareTeam) :
    (determineRecipients alert (some team)).userIDs =
      team.members.filterMap (recipientSelector alert.level) := by
  unfold determineRecipients
  simpa using foldl_recipients_userIDs alert team.members
    { userIDs := [], phoneNumbers := [], emails := [] }

/-- C8: for a fixed care team, the recipient user IDs for an IMMEDIATE alert
include all those for an URGENT alert, which include all those for an
ELEVATED alert. -/
theorem determineRecipients_superset (careTeam : Option CareTeam) (base : CrisisAlert) :
    ((determineRecipients { base with level := CrisisLevel.urgent } careTeam).userIDs ⊆
      (determineRecipients { base with level := CrisisLevel.immediate } careTeam).userIDs) ∧
    ((determineRecipients { base with level := CrisisLevel.elevated } careTeam).userIDs ⊆
      (determineRecipients { base with level := CrisisLevel.urgent } careTeam).userIDs) := by
  rcases careTeam with _ | team
  · constructor <;> simp [determineRecipients]
  · constructor <;> intro x hx
    · rw [determineRecipients_userIDs] at hx ⊢
      rcases List.mem_filterMap.mp hx with ⟨m, hm, hsel⟩
      refine List.mem_filterMap.mpr ⟨m, hm, ?_⟩
      by_cases hg : m.role = "physician" ∨ m.role = "nurse" ∨ m.role = "social_worker"
      · simp only [recipientSelector, if_pos hg, Option.some.injEq] at hsel
        simp [recipientSelector, hsel]
      · simp [recipientSelector, hg] at hsel
    · rw [determineRecipients_userIDs] at hx ⊢
      rcases List.mem_filterMap.mp hx with ⟨m, hm, hsel⟩
      refine List.mem_filterMap.mpr ⟨m, hm, ?_⟩
      by_cases hg : m.role = "physician" ∨ m.role = "social_worker"
      · simp only [recipientSelector, if_pos hg, Option.some.injEq] at hsel
        have hg2 : m.role = "physician" ∨ m.role = "nurse" ∨ m.role = "social_worker" := by
          tauto
        simp [recipientSelector, hg2, hsel]
      · simp [recipientSelector, hg] at hsel

/-! Reachable-state invariants. -/

/-- Numeric urgency rank of the severity order MODERATE < ELEVATED < URGENT <
IMMEDIATE (NONE below all). -/
def levelRank : CrisisLevel → Nat
  | CrisisLevel.immediate => 4
  | CrisisLevel.urgent => 3
  | CrisisLevel.elevated => 2
  | CrisisLevel.moderate => 1
  | CrisisLevel.none => 0

/-- A single escalation record never decreases severity, and an automatic one
from below the top tier strictly increases it. -/
def escalationRecordOK (e : Escalation) : Prop :=
  levelRank e.fromLevel ≤ levelRank e.toLevel ∧
  (e.triggeredBy = "auto" → e.fromLevel ≠ CrisisLevel.immediate →
    levelRank e.fromLevel < levelRank e.toLevel)

/-- An escalation history is non-decreasing across consecutive records, and
each record is individually monotone. -/
def escalationHistoryOK (h : List Escalation) : Prop :=
  List.Chain' (fun e1 e2 => levelRank e1.toLevel ≤ levelRank e2.fromLevel) h ∧
  ∀ e ∈ h, escalationRecordOK e

/-- Per-alert invariant maintained by every service operation. -/
def alertOK (a : CrisisAlert) : Prop :=
  a.level ≠ CrisisLevel.none ∧
  (a.status = AlertStatus.active → a.escalations = []) ∧
  escalationHistoryOK a.escalations

/-- Global invariant of every reachable service state: keys match alert IDs,
keys are unique, every recorded alert satisfies `alertOK`, and the status of
an indexed alert agrees with its stored copy. -/
def GoodState (st : ServiceState) : Prop :=
  (∀ p ∈ st.activeAlerts, p.1 = p.2.id) ∧
  (∀ p ∈ st.redisStore, p.1 = p.2.alert.id) ∧
  (st.activeAlerts.map Prod.fst).Nodup ∧
  (st.redisStore.map Prod.fst).Nodup ∧
  (∀ p ∈ st.activeAlerts, alertOK p.2) ∧
  (∀ p ∈ st.redisStore, alertOK p.2.alert) ∧
  (∀ id a, alGet id st.activeAlerts = some a →
    ∃ e, alGet id st.redisStore = some e ∧ a.status = e.alert.status)

theorem levelRank_le_nextLevel (l : CrisisLevel) :
    levelRank l ≤ levelRank (nextLevel l) := by
  cases l <;> simp [levelRank, nextLevel]

theorem levelRank_lt_nextLevel (l : CrisisLevel) (h1 : l ≠ CrisisLevel.none)
    (h2 : l ≠ CrisisLevel.immediate) : levelRank l < levelRank (nextLevel l) := by
  cases l <;> simp_all [levelRank, nextLevel]

theorem nextLevel_ne_none (l : CrisisLevel) (h : l ≠ CrisisLevel.none) :
    nextLevel l ≠ CrisisLevel.none := by
  cases l <;> simp_all [nextLevel]

theorem goodState_initState : GoodState initState := by
  refine ⟨?_, ?_, ?_, ?_, ?_, ?_, ?_⟩ <;>
    simp [initState, alGet]

theorem goodState_storeAlert (now : Nat) (a : CrisisAlert) (st : ServiceState)
    (hst : GoodState st) (ha : alertOK a) : GoodState (storeAlert now a st) := by
  obtain ⟨h1, h2, h3, h4, h5, h6, h7⟩ := hst
  refine ⟨?_, ?_, nodup_keys_alSet h3, nodup_keys_alSet h4, ?_, ?_, ?_⟩
  · intro p hp
    rcases mem_alSet hp with h | h
    · rw [h]
    · exact h1 p h
  · intro p hp
    rcases mem_alSet hp with h | h
    · rw [h]
    · exact h2 p h
  · intro p hp
    rcases mem_alSet hp with h | h
    · rw [h]; exact ha
    · exact h5 p h
  · intro p hp
    rcases mem_alSet hp with h | h
    · rw [h]; exact ha
    · exact h6 p h
  · intro id b hb
    simp only [storeAlert] at hb ⊢
    by_cases hid : id = a.id
    · subst hid
      rw [alGet_alSet_self] at hb
      refine ⟨{ alert := a, expiresAt := now + alertTTL }, alGet_alSet_self _ _ _, ?_⟩
      cases hb
      rfl
    · rw [alGet_alSet_ne _ _ hid] at hb
      obtain ⟨e, he, hs⟩ := h7 id b hb
      exact ⟨e, by rw [alGet_alSet_ne _ _ hid]; exact he, hs⟩

theorem goodState_filterActive (q : String × CrisisAlert → Bool) (st : ServiceState)
    (hst : GoodState st) :
    GoodState { st with activeAlerts := st.activeAlerts.filter q } := by
  obtain ⟨h1, h2, h3, h4, h5, h6, h7⟩ := hst
  refine ⟨fun p hp => h1 p (List.mem_of_mem_filter hp), h2, ?_, h4,
    fun p hp => h5 p (List.mem_of_mem_filter hp), h6, ?_⟩
  · exact List.Nodup.sublist (List.Sublist.map Prod.fst (List.filter_sublist _)) h3
  · intro id b hb
    exact h7 id b (alGet_filter_some h3 hb)

theorem goodState_setActive (k : String) (b : CrisisAlert) (st : ServiceState)
    (hst : GoodState st) (hb : alertOK b) (hid : k = b.id)
    (hcons : ∃ e, alGet k st.redisStore = some e ∧ b.status = e.alert.status) :
    GoodState { st with activeAlerts := alSet k b st.activeAlerts } := by
  obtain ⟨h1, h2, h3, h4, h5, h6, h7⟩ := hst
  refine ⟨?_, h2, nodup_keys_alSet h3, h4, ?_, h6, ?_⟩
  · intro p hp
    rcases mem_alSet hp with h | h
    · rw [h]; exact hid
    · exact h1 p h
  · intro p hp
    rcases mem_alSet hp with h | h
    · rw [h]; exact hb
    · exact h5 p h
  · intro id2 c hc
    by_cases hk : id2 = k
    · subst hk
      rw [alGet_alSet_self] at hc
      cases hc
      exact hcons
    · rw [alGet_alSet_ne _ _ hk] at hc
      exact h7 id2 c hc

/-! Inversion lemmas for the state-changing operations. -/

theorem getAlert_ok_inv {now : Nat} {alertID : String} {st : ServiceState} {a : CrisisAlert}
    (h : GetAlert now alertID st = Except.ok a) :
    ∃ e, alGet alertID st.redisStore = some e ∧ e.alert = a ∧ now < e.expiresAt := by
  unfold GetAlert at h
  split at h
  · cases h
  · rename_i e hg
    split at h
    · rename_i hexp
      exact ⟨e, hg, Except.ok.inj h, hexp⟩
    · cases h

theorem analyzeMessage_ok_none {cfg : CrisisServiceConfig} {now : Nat}
    {newId message : String} {dctx : DetectionContext}
    {router : Except String CrisisAnalysisResponse}
    {fallback : Except String DetectionResult} {st st1 : ServiceState}
    (h : AnalyzeMessage cfg now newId message dctx router fallback st =
      Except.ok (Option.none, st1)) : st1 = st := by
  unfold AnalyzeMessage at h
  rcases router with e | r
  · rcases fallback with e2 | r2
    · simp at h
    · simp only [] at h
      split at h
      · exact (Prod.mk.injEq _ _ _ _ ▸ Except.ok.inj h).2.symm
      · rcases ht : cfg.responseTimeouts r2.level with _ | t <;>
          rcases hp : dctx.phq9Score with _ | v1 <;>
          rcases hg : dctx.gad7Score with _ | v2 <;>
          simp_all
  · simp only [] at h
    split at h
    · exact (Prod.mk.injEq _ _ _ _ ▸ Except.ok.inj h).2.symm
    · rcases ht : cfg.responseTimeouts r.level with _ | t <;>
        rcases hp : dctx.phq9Score with _ | v1 <;>
        rcases hg : dctx.gad7Score with _ | v2 <;>
        simp_all

theorem acknowledgeAlert_ok_inv {now : Nat} {alertID userID role notes : String}
    {st st1 : ServiceState}
    (h : AcknowledgeAlert now alertID userID role notes st = Except.ok st1) :
    ∃ a, GetAlert now alertID st = Except.ok a ∧
      (a.status = AlertStatus.active ∨ a.status = AlertStatus.acknowledged) ∧
      st1 = storeAlert now
        { a with
          acknowledgments := a.acknowledgments ++
            [{ userID := userID, role := role, timestamp := now, notes := notes }],
          status := AlertStatus.acknowledged } st := by
  unfold AcknowledgeAlert at h
  split at h
  · cases h
  · rename_i a hg
    split at h
    · cases h
    · rename_i hcond
      simp only [Except.ok.injEq] at h
      exact ⟨a, hg, by tauto, h.symm⟩

theorem resolveAlert_ok_inv {now : Nat} {alertID userID resolution : String}
    {st st1 : ServiceState}
    (h : ResolveAlert now alertID userID resolution st = Except.ok st1) :
    ∃ a, GetAlert now alertID st = Except.ok a ∧
      st1 = { storeAlert now
          { a with
            status := AlertStatus.resolved,
            clinicalContext :=
              alSet "resolved_at" (ClinicalValue.time now)
                (alSet "resolved_by" (ClinicalValue.str userID)
                  (alSet "resolution" (ClinicalValue.str resolution) a.clinicalContext)) } st
        with activeAlerts :=
          alDel alertID (storeAlert now
            { a with
              status := AlertStatus.resolved,
              clinicalContext :=
                alSet "resolved_at" (ClinicalValue.time now)
                  (alSet "resolved_by" (ClinicalValue.str userID)
                    (alSet "resolution" (ClinicalValue.str resolution) a.clinicalContext)) } st).activeAlerts } := by
  unfold ResolveAlert at h
  split at h
  · cases h
  · rename_i a hg
    simp only [Except.ok.injEq] at h
    exact ⟨a, hg, h.symm⟩

/-- The alert value stored to Redis by an automatic monitor escalation:
record appended, status ESCALATED, level and deadline still the
pre-escalation ones (they are mutated only after the store). -/
def escalatedStoredAlert (now : Nat) (a : CrisisAlert) : CrisisAlert :=
  { a with
    escalations := a.escalations ++
      [{ fromLevel := a.level, toLevel := nextLevel a.level,
         reason := "Response deadline exceeded", timestamp := now, triggeredBy := "auto" }],
    status := AlertStatus.escalated }

/-- The in-memory alert after an automatic monitor escalation: additionally
carries the next-tier level and the recomputed deadline. -/
def escalatedActiveAlert (cfg : CrisisServiceConfig) (now : Nat) (a : CrisisAlert) : CrisisAlert :=
  { escalatedStoredAlert now a with
    level := nextLevel a.level,
    responseDeadline :=
      match cfg.responseTimeouts (nextLevel a.level) with
      | some t => now + t
      | Option.none => a.responseDeadline }

theorem escalateAlert_self (cfg : CrisisServiceConfig) (now : Nat) (a : CrisisAlert)
    (st : ServiceState) :
    alGet a.id (escalateAlert cfg now a st).redisStore =
      some { alert := escalatedStoredAlert now a, expiresAt := now + alertTTL } ∧
    alGet a.id (escalateAlert cfg now a st).activeAlerts =
      some (escalatedActiveAlert cfg now a) := by
  unfold escalateAlert recordEscalation storeAlert escalatedStoredAlert escalatedActiveAlert
  exact ⟨alGet_alSet_self _ _ _, alGet_alSet_self _ _ _⟩

theorem escalateAlert_frame (cfg : CrisisServiceConfig) (now : Nat) (a : CrisisAlert)
    (st : ServiceState) (k : String) (hk : k ≠ a.id) :
    alGet k (escalateAlert cfg now a st).redisStore = alGet k st.redisStore ∧
    alGet k (escalateAlert cfg now a st).activeAlerts = alGet k st.activeAlerts := by
  unfold escalateAlert recordEscalation storeAlert
  constructor
  · exact alGet_alSet_ne _ _ hk
  · rw [alGet_alSet_ne _ _ hk]
    exact alGet_alSet_ne _ _ hk

theorem goodState_escalateAlert (cfg : CrisisServiceConfig) (now : Nat) (a : CrisisAlert)
    (st : ServiceState) (hst : GoodState st) (ha : alertOK a)
    (hact : a.status = AlertStatus.active) :
    GoodState (escalateAlert cfg now a st) := by
  obtain ⟨hane, hemp, hhist⟩ := ha
  have hesc : a.escalations = [] := hemp hact
  have ha1 : alertOK (escalatedStoredAlert now a) := by
    unfold alertOK
    refine ⟨hane, ?_, ?_⟩
    · intro h
      exact absurd h (by simp [escalatedStoredAlert])
    unfold escalationHistoryOK
    constructor
    · show List.Chain' _ (a.escalations ++ _)
      rw [hesc]
      simp
    · intro e he
      have he2 : e ∈ a.escalations ++
          [{ fromLevel := a.level, toLevel := nextLevel a.level,
             reason := "Response deadline exceeded", timestamp := now,
             triggeredBy := "auto" }] := he
      rw [hesc] at he2
      simp only [List.nil_append, List.mem_singleton] at he2
      subst he2
      exact ⟨levelRank_le_nextLevel a.level,
        fun _ h2 => levelRank_lt_nextLevel a.level hane h2⟩
  have ha2 : alertOK (escalatedActiveAlert cfg now a) := by
    obtain ⟨_, _, hh⟩ := ha1
    unfold alertOK
    refine ⟨nextLevel_ne_none a.level hane, ?_, ?_⟩
    · intro h
      exact absurd h (by simp [escalatedActiveAlert, escalatedStoredAlert])
    · exact hh
  show GoodState { storeAlert now (escalatedStoredAlert now a) st with
    activeAlerts := alSet a.id (escalatedActiveAlert cfg now a)
      (storeAlert now (escalatedStoredAlert now a) st).activeAlerts }
  refine goodState_setActive a.id (escalatedActiveAlert cfg now a) _
    (goodState_storeAlert now (escalatedStoredAlert now a) st hst ha1) ha2 rfl ?_
  refine ⟨{ alert := escalatedStoredAlert now a, expiresAt := now + alertTTL }, ?_, rfl⟩
  show alGet a.id (alSet _ _ _) = some _
  exact alGet_alSet_self _ _ _

theorem goodState_checkFold (cfg : CrisisServiceConfig) (now : Nat)
    (l : List (String × CrisisAlert)) : ∀ acc : ServiceState,
    (∀ p ∈ l, alertOK p.2) → GoodState acc →
    GoodState (l.foldl (checkEscalationsStep cfg now) acc) := by
  induction l with
  | nil => exact fun acc _ h => h
  | cons p t ih =>
    intro acc hl hacc
    rw [List.foldl_cons]
    refine ih _ (fun q hq => hl q (List.mem_cons_of_mem _ hq)) ?_
    unfold checkEscalationsStep
    by_cases hc : p.2.status = AlertStatus.active ∧ p.2.responseDeadline < now ∧
        p.2.acknowledgments = []
    · rw [if_pos hc]
      exact goodState_escalateAlert cfg now p.2 acc hacc
        (hl p (List.mem_cons_self _ _)) hc.1
    · rw [if_neg hc]
      exact hacc

theorem goodState_checkEscalations (cfg : CrisisServiceConfig) (now : Nat)
    (st : ServiceState) (hst : GoodState st) : GoodState (checkEscalations cfg now st) :=
  goodState_checkFold cfg now st.activeAlerts st hst.2.2.2.2.1 hst

theorem goodState_monitorFor911 (now : Nat) (alertID : String) (st : ServiceState)
    (hst : GoodState st) : GoodState (monitorFor911Escalation now alertID st) := by
  unfold monitorFor911Escalation
  split
  · exact hst
  · rename_i current hG
    split
    · rename_i hc
      obtain ⟨e, he, hea, _⟩ := getAlert_ok_inv hG
      have hcur : alertOK current := hea ▸ hst.2.2.2.2.2.1 _ (mem_of_alGet he)
      obtain ⟨hne, hemp, _⟩ := hcur
      have hesc : current.escalations = [] := hemp hc.1
      unfold recordEscalation
      refine goodState_storeAlert now _ st hst ?_
      unfold alertOK
      refine ⟨hne, ?_, ?_⟩
      · intro h
        exact absurd h (by simp)
      unfold escalationHistoryOK
      constructor
      · show List.Chain' _ (current.escalations ++ _)
        rw [hesc]
        simp
      · intro e2 he2
        have he3 : e2 ∈ current.escalations ++
            [{ fromLevel := CrisisLevel.immediate, toLevel := CrisisLevel.immediate,
               reason := "No acknowledgment within deadline", timestamp := now,
               triggeredBy := "auto" }] := he2
        rw [hesc] at he3
        simp only [List.nil_append, List.mem_singleton] at he3
        subst he3
        exact ⟨le_refl _, fun _ h2 => absurd rfl h2⟩
    · exact hst

theorem goodState_step (cfg : CrisisServiceConfig) (now : Nat) (op : Op)
    (st : ServiceState) (hst : GoodState st) : GoodState (step cfg now op st) := by
  cases op with
  | analyze newId message dctx router fallback =>
    show GoodState (match AnalyzeMessage cfg now newId message dctx router fallback st with
      | Except.ok r => r.2
      | Except.error _ => st)
    rcases hA : AnalyzeMessage cfg now newId message dctx router fallback st with e | r
    · exact hst
    · rcases r with ⟨o, st1⟩
      rcases o with _ | alert
      · have := analyzeMessage_ok_none hA
        subst this
        exact hst
      · obtain ⟨hne, _, _, hact, _, hesc, _, hst1⟩ :=
          analyzeMessage_ok_some cfg now newId message dctx router fallback st alert st1 hA
        subst hst1
        refine goodState_storeAlert now alert st hst ?_
        exact ⟨hne, fun _ => hesc, by rw [hesc]; exact ⟨List.chain'_nil, by simp⟩⟩
  | acknowledge alertID userID role notes =>
    show GoodState (match AcknowledgeAlert now alertID userID role notes st with
      | Except.ok st1 => st1
      | Except.error _ => st)
    rcases hA : AcknowledgeAlert now alertID userID role notes st with e | st1
    · exact hst
    · obtain ⟨a, hg, _, hst1⟩ := acknowledgeAlert_ok_inv hA
      obtain ⟨e, he, hea, _⟩ := getAlert_ok_inv hg
      have haK : alertOK a := hea ▸ hst.2.2.2.2.2.1 _ (mem_of_alGet he)
      obtain ⟨hne, _, hh⟩ := haK
      subst hst1
      refine goodState_storeAlert now _ st hst ?_
      unfold alertOK
      refine ⟨hne, ?_, hh⟩
      intro h
      exact absurd h (by simp)
  | resolve alertID userID resolution =>
    show GoodState (match ResolveAlert now alertID userID resolution st with
      | Except.ok st1 => st1
      | Except.error _ => st)
    rcases hA : ResolveAlert now alertID userID resolution st with e | st1
    · exact hst
    · obtain ⟨a, hg, hst1⟩ := resolveAlert_ok_inv hA
      obtain ⟨e, he, hea, _⟩ := getAlert_ok_inv hg
      have haK : alertOK a := hea ▸ hst.2.2.2.2.2.1 _ (mem_of_alGet he)
      obtain ⟨hne, _, hh⟩ := haK
      subst hst1
      refine goodState_filterActive _ _ ?_
      refine goodState_storeAlert now _ st hst ?_
      unfold alertOK
      refine ⟨hne, ?_, hh⟩
      intro h
      exact absurd h (by simp)
  | escalationTick => exact goodState_checkEscalations cfg now st hst
  | watch911 alertID => exact goodState_monitorFor911 now alertID st hst
  | cleanup => exact goodState_filterActive _ _ hst

theorem goodState_run (cfg : CrisisServiceConfig) (ops : List (Nat × Op)) :
    ∀ st : ServiceState, GoodState st → GoodState (run cfg ops st) := by
  induction ops with
  | nil => exact fun st h => h
  | cons e rest ih =>
    intro st hst
    exact ih _ (goodState_step cfg e.1 e.2 st hst)

theorem checkFold_frame (cfg : CrisisServiceConfig) (now : Nat)
    (l : List (String × CrisisAlert)) (id : String) : ∀ acc : ServiceState,
    (∀ p ∈ l, p.1 = p.2.id) →
    (∀ p ∈ l, p.1 = id → p.2.status ≠ AlertStatus.active) →
    alGet id ((l.foldl (checkEscalationsStep cfg now) acc)).redisStore =
      alGet id acc.redisStore ∧
    alGet id ((l.foldl (checkEscalationsStep cfg now) acc)).activeAlerts =
      alGet id acc.activeAlerts := by
  induction l with
  | nil => exact fun acc _ _ => ⟨rfl, rfl⟩
  | cons p t ih =>
    intro acc hmatch hnot
    rw [List.foldl_cons]
    have hstep : alGet id (checkEscalationsStep cfg now acc p).redisStore =
        alGet id acc.redisStore ∧
        alGet id (checkEscalationsStep cfg now acc p).activeAlerts =
        alGet id acc.activeAlerts := by
      unfold checkEscalationsStep
      by_cases hc : p.2.status = AlertStatus.active ∧ p.2.responseDeadline < now ∧
          p.2.acknowledgments = []
      · rw [if_pos hc]
        have hpid : p.1 ≠ id := fun h => hnot p (List.mem_cons_self _ _) h hc.1
        have hk : id ≠ p.2.id := fun h => hpid ((hmatch p (List.mem_cons_self _ _)).trans h.symm)
        exact escalateAlert_frame cfg now p.2 acc id hk
      · rw [if_neg hc]
        exact ⟨rfl, rfl⟩
    have hrest := ih (checkEscalationsStep cfg now acc p)
      (fun q hq => hmatch q (List.mem_cons_of_mem _ hq))
      (fun q hq => hnot q (List.mem_cons_of_mem _ hq))
    exact ⟨hrest.1.trans hstep.1, hrest.2.trans hstep.2⟩

theorem checkFold_hit (cfg : CrisisServiceConfig) (now : Nat)
    (l : List (String × CrisisAlert)) (id : String) (a : CrisisAlert) :
    ∀ acc : ServiceState,
    (l.map Prod.fst).Nodup →
    (∀ p ∈ l, p.1 = p.2.id) →
    (id, a) ∈ l →
    a.status = AlertStatus.active → a.responseDeadline < now → a.acknowledgments = [] →
    alGet id ((l.foldl (checkEscalationsStep cfg now) acc)).redisStore =
      some { alert := escalatedStoredAlert now a, expiresAt := now + alertTTL } ∧
    alGet id ((l.foldl (checkEscalationsStep cfg now) acc)).activeAlerts =
      some (escalatedActiveAlert cfg now a) := by
  induction l with
  | nil =>
    intro acc _ _ hmem
    cases hmem
  | cons p t ih =>
    intro acc hnd hmatch hmem hs hd hk
    rw [List.foldl_cons]
    rcases List.mem_cons.mp hmem with he | he
    · have hid : id = a.id := by
        have := hmatch p (List.mem_cons_self _ _)
        rw [← he] at this
        exact this
      have hstep : checkEscalationsStep cfg now acc p = escalateAlert cfg now a acc := by
        unfold checkEscalationsStep
        rw [← he]
        rw [if_pos ⟨hs, hd, hk⟩]
      rw [hstep]
      have hniet : ∀ q ∈ t, ¬(q.1 = id) := by
        intro q hq hqid
        simp only [List.map_cons, List.nodup_cons] at hnd
        have h1 : q.1 ∈ t.map Prod.fst := List.mem_map_of_mem Prod.fst hq
        rw [hqid] at h1
        have h2 : p.1 = id := by rw [← he]
        rw [← h2] at h1
        exact hnd.1 h1
      have hframe := checkFold_frame cfg now t id (escalateAlert cfg now a acc)
        (fun q hq => hmatch q (List.mem_cons_of_mem _ hq))
        (fun q hq hqid => absurd hqid (hniet q hq))
      constructor
      · rw [hframe.1, hid]
        exact (escalateAlert_self cfg now a acc).1
      · rw [hframe.2, hid]
        exact (escalateAlert_self cfg now a acc).2
    · refine ih _ ?_ (fun q hq => hmatch q (List.mem_cons_of_mem _ hq)) he hs hd hk
      simp only [List.map_cons, List.nodup_cons] at hnd
      exact hnd.2

/-- C1: in any reachable state in which an alert's stored status is
ACKNOWLEDGED or RESOLVED, a subsequent EscalationMonitor tick leaves its
stored record untouched and its index entry unchanged, and the
EmergencyEscalationWatcher firing for it leaves the entire state unchanged:
no automatic escalation changes its status, severity or escalation history. -/
theorem no_auto_escalation_after_ack_or_resolve (cfg : CrisisServiceConfig)
    (ops : List (Nat × Op)) (st : ServiceState) (id : String) (now : Nat) (e : StoredEntry)
    (hrun : st = run cfg ops initState)
    (hget : alGet id st.redisStore = some e)
    (hstat : e.alert.status = AlertStatus.acknowledged ∨
      e.alert.status = AlertStatus.resolved) :
    alGet id (checkEscalations cfg now st).redisStore = some e ∧
    alGet id (checkEscalations cfg now st).activeAlerts = alGet id st.activeAlerts ∧
    monitorFor911Escalation now id st = st := by
  have hgs : GoodState st := by
    rw [hrun]
    exact goodState_run cfg ops initState goodState_initState
  obtain ⟨h1, h2, h3, h4, h5, h6, h7⟩ := hgs
  have hnot : ∀ p ∈ st.activeAlerts, p.1 = id → p.2.status ≠ AlertStatus.active := by
    intro p hp hpid hact
    have hga : alGet id st.activeAlerts = some p.2 := by
      rw [← hpid]
      exact alGet_eq_some_of_mem h3 hp
    obtain ⟨e2, he2, hs2⟩ := h7 id p.2 hga
    rw [hget] at he2
    cases he2
    rw [hact] at hs2
    rcases hstat with h | h <;> rw [← hs2] at h <;> cases h
  have hframe := checkFold_frame cfg now st.activeAlerts id st h1 hnot
  refine ⟨?_, hframe.2, ?_⟩
  · show alGet id (st.activeAlerts.foldl (checkEscalationsStep cfg now) st).redisStore = some e
    rw [hframe.1, hget]
  · have hG : GetAlert now id st =
        if now < e.expiresAt then Except.ok e.alert else Except.error "alert not found" := by
      unfold GetAlert
      rw [hget]
    unfold monitorFor911Escalation
    rw [hG]
    by_cases hexp : now < e.expiresAt
    · rw [if_pos hexp]
      show (if e.alert.status = AlertStatus.active ∧ e.alert.acknowledgments = []
        then _ else st) = st
      have hxx : ¬(e.alert.status = AlertStatus.active ∧ e.alert.acknowledgments = []) := by
        rintro ⟨ha, _⟩
        rcases hstat with h | h <;> rw [ha] at h <;> cases h
      rw [if_neg hxx]
    · rw [if_neg hexp]

theorem getActiveAlerts_excludes (now : Nat) (st : ServiceState) (id : String)
    (hmatch : ∀ p ∈ st.redisStore, p.1 = p.2.alert.id)
    (hnd : (st.redisStore.map Prod.fst).Nodup)
    (hstatus : ∀ e, alGet id st.redisStore = some e →
      ¬(e.alert.status = AlertStatus.active ∨
        e.alert.status = AlertStatus.acknowledged)) :
    ∀ b ∈ GetActiveAlerts now st, b.id ≠ id := by
  intro b hb hbid
  unfold GetActiveAlerts at hb
  rcases List.mem_filterMap.mp hb with ⟨p, hp, hps⟩
  have hpmem : p ∈ st.redisStore := List.mem_of_mem_filter hp
  by_cases hc : p.2.alert.status = AlertStatus.active ∨
      p.2.alert.status = AlertStatus.acknowledged
  · rw [if_pos hc] at hps
    have hba : p.2.alert = b := Option.some.inj hps
    have hpid : p.1 = id := by rw [hmatch p hpmem, hba, hbid]
    have hget2 : alGet id st.redisStore = some p.2 := by
      rw [← hpid]
      exact alGet_eq_some_of_mem hnd hpmem
    exact hstatus p.2 hget2 hc
  · rw [if_neg hc] at hps
    cases hps

/-- C10: every automatic escalation records status ESCALATED; consequently,
once the monitor escalates an alert, its stored and indexed status are
ESCALATED, a later monitor tick no longer touches it (it only considers
ACTIVE alerts), and it no longer appears in GetActiveAlerts (which keeps only
ACTIVE and ACKNOWLEDGED alerts). -/
theorem escalation_is_terminal (cfg : CrisisServiceConfig) (ops : List (Nat × Op))
    (st : ServiceState) (id : String) (a : CrisisAlert) (now now2 now3 : Nat)
    (hrun : st = run cfg ops initState)
    (hmem : alGet id st.activeAlerts = some a)
    (hact : a.status = AlertStatus.active)
    (hdl : a.responseDeadline < now)
    (hack : a.acknowledgments = []) :
    (∀ (c : CrisisAlert) (st4 : ServiceState) (n4 : Nat) (fl tl : CrisisLevel)
      (rsn trg : String),
      ((recordEscalation n4 c fl tl rsn trg st4).1).status = AlertStatus.escalated) ∧
    alGet id (checkEscalations cfg now st).redisStore =
      some { alert := escalatedStoredAlert now a, expiresAt := now + alertTTL } ∧
    (escalatedStoredAlert now a).status = AlertStatus.escalated ∧
    alGet id (checkEscalations cfg now st).activeAlerts =
      some (escalatedActiveAlert cfg now a) ∧
    (escalatedActiveAlert cfg now a).status = AlertStatus.escalated ∧
    (alGet id (checkEscalations cfg now2 (checkEscalations cfg now st)).redisStore =
       alGet id (checkEscalations cfg now st).redisStore ∧
     alGet id (checkEscalations cfg now2 (checkEscalations cfg now st)).activeAlerts =
       alGet id (checkEscalations cfg now st).activeAlerts) ∧
    (∀ b ∈ GetActiveAlerts now3 (checkEscalations cfg now st), b.id ≠ id) := by
  have hgs : GoodState st := by
    rw [hrun]
    exact goodState_run cfg ops initState goodState_initState
  have hgs2 : GoodState (checkEscalations cfg now st) :=
    goodState_checkEscalations cfg now st hgs
  obtain ⟨h1, h2, h3, h4, h5, h6, h7⟩ := hgs
  have hpair : (id, a) ∈ st.activeAlerts := mem_of_alGet hmem
  have hhit := checkFold_hit cfg now st.activeAlerts id a st h3 h1 hpair hact hdl hack
  have hhitR : alGet id (checkEscalations cfg now st).redisStore =
      some { alert := escalatedStoredAlert now a, expiresAt := now + alertTTL } := hhit.1
  have hhitA : alGet id (checkEscalations cfg now st).activeAlerts =
      some (escalatedActiveAlert cfg now a) := hhit.2
  obtain ⟨g1, g2, g3, g4, g5, g6, g7⟩ := hgs2
  refine ⟨fun c st4 n4 fl tl rsn trg => rfl, hhitR, rfl, hhitA, rfl, ?_, ?_⟩
  · have hnot2 : ∀ p ∈ (checkEscalations cfg now st).activeAlerts,
        p.1 = id → p.2.status ≠ AlertStatus.active := by
      intro p hp hpid hact2
      have hga : alGet id (checkEscalations cfg now st).activeAlerts = some p.2 := by
        rw [← hpid]
        exact alGet_eq_some_of_mem g3 hp
      rw [hhitA] at hga
      have hpe : escalatedActiveAlert cfg now a = p.2 := Option.some.inj hga
      rw [← hpe] at hact2
      cases hact2
    exact checkFold_frame cfg now2 (checkEscalations cfg now st).activeAlerts id
      (checkEscalations cfg now st) g1 hnot2
  · refine getActiveAlerts_excludes now3 (checkEscalations cfg now st) id g2 g4 ?_
    intro e he
    rw [hhitR] at he
    cases he
    rintro (h | h) <;> cases h

/-- C4: in every reachable state, each alert's escalation history is
non-decreasing in severity (within each record and across consecutive
records, in the order MODERATE < ELEVATED < URGENT < IMMEDIATE), and every
automatic escalation whose from-severity is not IMMEDIATE strictly increases
the severity. -/
theorem escalation_history_monotone (cfg : CrisisServiceConfig) (ops : List (Nat × Op)) :
    (∀ p ∈ (run cfg ops initState).redisStore,
      List.Chain' (fun e1 e2 => levelRank e1.toLevel ≤ levelRank e2.fromLevel)
        p.2.alert.escalations ∧
      ∀ e ∈ p.2.alert.escalations,
        levelRank e.fromLevel ≤ levelRank e.toLevel ∧
        (e.triggeredBy = "auto" → e.fromLevel ≠ CrisisLevel.immediate →
          levelRank e.fromLevel < levelRank e.toLevel)) ∧
    (∀ p ∈ (run cfg ops initState).activeAlerts,
      List.Chain' (fun e1 e2 => levelRank e1.toLevel ≤ levelRank e2.fromLevel)
        p.2.escalations ∧
      ∀ e ∈ p.2.escalations,
        levelRank e.fromLevel ≤ levelRank e.toLevel ∧
        (e.triggeredBy = "auto" → e.fromLevel ≠ CrisisLevel.immediate →
          levelRank e.fromLevel < levelRank e.toLevel)) := by
  have hgs : GoodState (run cfg ops initState) :=
    goodState_run cfg ops initState goodState_initState
  constructor
  · intro p hp
    obtain ⟨_, _, hh⟩ := hgs.2.2.2.2.2.1 p hp
    exact ⟨hh.1, fun e he => hh.2 e he⟩
  · intro p hp
    obtain ⟨_, _, hh⟩ := hgs.2.2.2.2.1 p hp
    exact ⟨hh.1, fun e he => hh.2 e he⟩

/-- Whether an operation would create an alert record under the given ID (the
Go code draws a fresh UUID here, so reuse of an existing ID cannot occur). -/
def opCreates (id : String) : Op → Prop
  | Op.analyze newId _ _ _ _ => newId = id
  | _ => False

/-- After a resolution: the stored copy of the alert (if readable) is
RESOLVED, and the alert is absent from the open-alert index. -/
def ResolvedHidden (id : String) (st : ServiceState) : Prop :=
  (∀ e, alGet id st.redisStore = some e → e.alert.status = AlertStatus.resolved) ∧
  alGet id st.activeAlerts = Option.none

theorem resolvedHidden_step (cfg : CrisisServiceConfig) (now : Nat) (op : Op)
    (st : ServiceState) (id : String) (hst : GoodState st)
    (hr : ResolvedHidden id st) (hfresh : ¬ opCreates id op) :
    ResolvedHidden id (step cfg now op st) := by
  obtain ⟨hR, hA⟩ := hr
  obtain ⟨h1, h2, h3, h4, h5, h6, h7⟩ := hst
  cases op with
  | analyze newId message dctx router fallback =>
    show ResolvedHidden id (match AnalyzeMessage cfg now newId message dctx router fallback st with
      | Except.ok r => r.2
      | Except.error _ => st)
    rcases hAn : AnalyzeMessage cfg now newId message dctx router fallback st with e | r
    · exact ⟨hR, hA⟩
    · rcases r with ⟨o, st1⟩
      rcases o with _ | alert
      · have h0 := analyzeMessage_ok_none hAn
        subst h0
        exact ⟨hR, hA⟩
      · obtain ⟨_, hid, _, _, _, _, _, hst1⟩ :=
          analyzeMessage_ok_some cfg now newId message dctx router fallback st alert st1 hAn
        subst hst1
        have hne : id ≠ alert.id := by
          intro hh
          exact hfresh (by rw [hid] at hh; exact hh.symm)
        constructor
        · intro e he
          simp only [storeAlert] at he
          rw [alGet_alSet_ne _ _ hne] at he
          exact hR e he
        · show alGet id (alSet alert.id alert st.activeAlerts) = Option.none
          rw [alGet_alSet_ne _ _ hne]
          exact hA
  | acknowledge alertID userID role notes =>
    show ResolvedHidden id (match AcknowledgeAlert now alertID userID role notes st with
      | Except.ok st1 => st1
      | Except.error _ => st)
    rcases hAck : AcknowledgeAlert now alertID userID role notes st with e | st1
    · exact ⟨hR, hA⟩
    · obtain ⟨a, hg, hstat, hst1⟩ := acknowledgeAlert_ok_inv hAck
      obtain ⟨e0, he0, hea, _⟩ := getAlert_ok_inv hg
      subst hst1
      have hne : id ≠ a.id := by
        intro hh
        have hkey : alertID = a.id := by
          have h9 : alertID = e0.alert.id := h2 (alertID, e0) (mem_of_alGet he0)
          rw [hea] at h9
          exact h9
        have hi : alGet id st.redisStore = some e0 := by
          rw [hh, ← hkey]
          exact he0
        have hres := hR e0 hi
        rw [hea] at hres
        rcases hstat with h | h <;> rw [hres] at h <;> cases h
      constructor
      · intro e he
        simp only [storeAlert] at he
        rw [alGet_alSet_ne _ _ hne] at he
        exact hR e he
      · show alGet id (alSet a.id _ st.activeAlerts) = Option.none
        rw [alGet_alSet_ne _ _ hne]
        exact hA
  | resolve alertID userID resolution =>
    show ResolvedHidden id (match ResolveAlert now alertID userID resolution st with
      | Except.ok st1 => st1
      | Except.error _ => st)
    rcases hRes : ResolveAlert now alertID userID resolution st with e | st1
    · exact ⟨hR, hA⟩
    · obtain ⟨a, hg, hst1⟩ := resolveAlert_ok_inv hRes
      obtain ⟨e0, he0, hea, _⟩ := getAlert_ok_inv hg
      have hkey : alertID = a.id := by
        have h9 : alertID = e0.alert.id := h2 (alertID, e0) (mem_of_alGet he0)
        rw [hea] at h9
        exact h9
      subst hst1
      constructor
      · intro e he
        simp only [storeAlert] at he
        by_cases hii : id = a.id
        · rw [hii, alGet_alSet_self] at he
          cases he
          rfl
        · rw [alGet_alSet_ne _ _ hii] at he
          exact hR e he
      · show alGet id (alDel alertID _) = Option.none
        by_cases hii : id = alertID
        · rw [hii]
          exact alGet_alDel_self _ _
        · rw [alGet_alDel_ne _ hii]
          have hnr : id ≠ a.id := by
            rw [← hkey]
            exact hii
          show alGet id (alSet a.id _ st.activeAlerts) = Option.none
          rw [alGet_alSet_ne _ _ hnr]
          exact hA
  | escalationTick =>
    have hnone : ∀ p ∈ st.activeAlerts, p.1 ≠ id := alGet_eq_none_iff.mp hA
    have hframe := checkFold_frame cfg now st.activeAlerts id st h1
      (fun p hp hpid => absurd hpid (hnone p hp))
    constructor
    · intro e he
      have he2 : alGet id st.redisStore = some e := by
        rw [← hframe.1]
        exact he
      exact hR e he2
    · show alGet id (st.activeAlerts.foldl (checkEscalationsStep cfg now) st).activeAlerts =
        Option.none
      rw [hframe.2]
      exact hA
  | watch911 alertID =>
    show ResolvedHidden id (monitorFor911Escalation now alertID st)
    unfold monitorFor911Escalation
    split
    · exact ⟨hR, hA⟩
    · rename_i current hG
      split
      · rename_i hc
        obtain ⟨e0, he0, hea, _⟩ := getAlert_ok_inv hG
        have hne : id ≠ current.id := by
          intro hh
          have hkey : alertID = current.id := by
            have h9 : alertID = e0.alert.id := h2 (alertID, e0) (mem_of_alGet he0)
            rw [hea] at h9
            exact h9
          have hi : alGet id st.redisStore = some e0 := by
            rw [hh, ← hkey]
            exact he0
          have hres := hR e0 hi
          rw [hea] at hres
          rw [hc.1] at hres
          cases hres
        constructor
        · intro e he
          simp only [recordEscalation, storeAlert] at he
          rw [alGet_alSet_ne _ _ hne] at he
          exact hR e he
        · show alGet id (alSet current.id _ st.activeAlerts) = Option.none
          rw [alGet_alSet_ne _ _ hne]
          exact hA
      · exact ⟨hR, hA⟩
  | cleanup =>
    refine ⟨hR, ?_⟩
    show alGet id (st.activeAlerts.filter _) = Option.none
    exact alGet_filter_none hA

theorem resolvedHidden_run (cfg : CrisisServiceConfig) (later : List (Nat × Op)) :
    ∀ (st : ServiceState) (id : String), GoodState st → ResolvedHidden id st →
    (∀ q ∈ later, ¬ opCreates id q.2) → ResolvedHidden id (run cfg later st) := by
  induction later with
  | nil => exact fun st id _ h _ => h
  | cons q rest ih =>
    intro st id hgs hr hfresh
    exact ih _ id (goodState_step cfg q.1 q.2 st hgs)
      (resolvedHidden_step cfg q.1 q.2 st id hgs hr (hfresh q (List.mem_cons_self _ _)))
      (fun q2 hq2 => hfresh q2 (List.mem_cons_of_mem _ hq2))

/-- C7: after a successful ResolveAlert in a reachable state, every later
GetActiveAlerts query (after any further operations that do not recreate the
same alert ID — IDs are fresh UUIDs in the source) excludes that alert, and
GetAlert by its ID on the post-resolution state still returns the alert with
status RESOLVED exactly until its 7-day storage TTL expires. -/
theorem resolved_alert_hidden_until_ttl (cfg : CrisisServiceConfig)
    (ops later : List (Nat × Op)) (st st1 : ServiceState)
    (now0 : Nat) (alertID userID resolution : String)
    (hrun : st = run cfg ops initState)
    (hres : ResolveAlert now0 alertID userID resolution st = Except.ok st1)
    (hfresh : ∀ q ∈ later, ¬ opCreates alertID q.2) :
    (∀ now1, ∀ b ∈ GetActiveAlerts now1 (run cfg later st1), b.id ≠ alertID) ∧
    (∀ now1, now1 < now0 + alertTTL →
      ∃ a, GetAlert now1 alertID st1 = Except.ok a ∧ a.status = AlertStatus.resolved) ∧
    (∀ now1, now0 + alertTTL ≤ now1 →
      GetAlert now1 alertID st1 = Except.error "alert not found") := by
  have hgs : GoodState st := by
    rw [hrun]
    exact goodState_run cfg ops initState goodState_initState
  have hgs1 : GoodState st1 := by
    have hstep : st1 = step cfg now0 (Op.resolve alertID userID resolution) st := by
      show st1 = (match ResolveAlert now0 alertID userID resolution st with
        | Except.ok st2 => st2
        | Except.error _ => st)
      rw [hres]
    rw [hstep]
    exact goodState_step cfg now0 _ st hgs
  obtain ⟨a, hg, hst1⟩ := resolveAlert_ok_inv hres
  obtain ⟨e0, he0, hea, _⟩ := getAlert_ok_inv hg
  have hkey : alertID = a.id := by
    have h9 : alertID = e0.alert.id := hgs.2.1 (alertID, e0) (mem_of_alGet he0)
    rw [hea] at h9
    exact h9
  have hga : alGet alertID st1.redisStore = some
      { alert := { a with
          status := AlertStatus.resolved,
          clinicalContext :=
            alSet "resolved_at" (ClinicalValue.time now0)
              (alSet "resolved_by" (ClinicalValue.str userID)
                (alSet "resolution" (ClinicalValue.str resolution) a.clinicalContext)) },
        expiresAt := now0 + alertTTL } := by
    rw [hst1]
    show alGet alertID (alSet a.id _ st.redisStore) = _
    rw [hkey]
    exact alGet_alSet_self _ _ _
  have hRH : ResolvedHidden alertID st1 := by
    constructor
    · intro e he
      rw [hga] at he
      cases he
      rfl
    · rw [hst1]
      show alGet alertID (alDel alertID _) = Option.none
      exact alGet_alDel_self _ _
  have hRHrun := resolvedHidden_run cfg later st1 alertID hgs1 hRH hfresh
  have hgsrun : GoodState (run cfg later st1) := goodState_run cfg later st1 hgs1
  refine ⟨?_, ?_, ?_⟩
  · intro now1
    refine getActiveAlerts_excludes now1 (run cfg later st1) alertID
      hgsrun.2.1 hgsrun.2.2.2.1 ?_
    intro e he
    rw [hRHrun.1 e he]
    rintro (h | h) <;> cases h
  · intro now1 hlt
    refine ⟨{ a with
        status := AlertStatus.resolved,
        clinicalContext :=
          alSet "resolved_at" (ClinicalValue.time now0)
            (alSet "resolved_by" (ClinicalValue.str userID)
              (alSet "resolution" (ClinicalValue.str resolution) a.clinicalContext)) },
      ?_, rfl⟩
    unfold GetAlert
    rw [hga]
    show (if now1 < now0 + alertTTL then _ else _) = _
    rw [if_pos hlt]
  · intro now1 hge
    unfold GetAlert
    rw [hga]
    show (if now1 < now0 + alertTTL then _ else _) = _
    rw [if_neg (Nat.not_lt.mpr hge)]

/-! Concrete sample data for exercising the theorems. -/

def sampleCtx : DetectionContext :=
  { userID := "u1", sessionID := "s1", recentMessages := [], phq9Score := Option.none,
    gad7Score := Option.none, lifeStoryRisks := [] }

def sampleResponse (l : CrisisLevel) : CrisisAnalysisResponse :=
  { level := l, confidence := 1, patterns := ["pattern"], reasoning := "match" }

/-- The alert created by analyzing "help" at time 0 with a MODERATE
classification under the default configuration. -/
def moderateAlertSample : CrisisAlert :=
  { id := "a2", userID := "u1", sessionID := "s1", level := CrisisLevel.moderate,
    confidenceScore := 1, triggerMessage := "help", detectedPatterns := ["pattern"],
    clinicalContext := [], timestamp := 0, responseDeadline := 86400,
    status := AlertStatus.active, assignedTo := [], acknowledgments := [],
    escalations := [] }

def c1Ops : List (Nat × Op) :=
  [(0, Op.analyze "a1" "help" sampleCtx (Except.ok (sampleResponse CrisisLevel.immediate))
      (Except.error "down")),
   (5, Op.acknowledge "a1" "nurse1" "nurse" "on it")]

def c1AlertAcked : CrisisAlert :=
  { id := "a1", userID := "u1", sessionID := "s1",
    level := CrisisLevel.immediate, confidenceScore := 1, triggerMessage := "help",
    detectedPatterns := ["pattern"], clinicalContext := [], timestamp := 0,
    responseDeadline := 30, status := AlertStatus.acknowledged, assignedTo := [],
    acknowledgments := [{ userID := "nurse1", role := "nurse", timestamp := 5, notes := "on it" }],
    escalations := [] }

def c1Entry : StoredEntry :=
  { alert := c1AlertAcked, expiresAt := 604805 }

theorem c1_witness :
    alGet "a1" (run DefaultCrisisConfig c1Ops initState).redisStore = some c1Entry ∧
    c1Entry.alert.status = AlertStatus.acknowledged ∧
    monitorFor911Escalation 100 "a1" (run DefaultCrisisConfig c1Ops initState) =
      run DefaultCrisisConfig c1Ops initState :=
  ⟨by decide, by decide,
    (no_auto_escalation_after_ack_or_resolve DefaultCrisisConfig c1Ops
      (run DefaultCrisisConfig c1Ops initState) "a1" 100 c1Entry rfl (by decide)
      (Or.inl (by decide))).2.2⟩

theorem c2_witness :
    AnalyzeMessage DefaultCrisisConfig 0 "a2" "help" sampleCtx
      (Except.ok (sampleResponse CrisisLevel.moderate)) (Except.error "x") initState =
      Except.ok (some moderateAlertSample, storeAlert 0 moderateAlertSample initState) ∧
    (∃ t, DefaultCrisisConfig.responseTimeouts moderateAlertSample.level = some t ∧
      moderateAlertSample.timestamp = 0 ∧
      moderateAlertSample.responseDeadline = moderateAlertSample.timestamp + t) :=
  ⟨by decide,
    analyzeMessage_deadline_eq_creation_plus_timeout 0 "a2" "help" sampleCtx
      (Except.ok (sampleResponse CrisisLevel.moderate)) (Except.error "x") initState
      moderateAlertSample (storeAlert 0 moderateAlertSample initState) (by decide)⟩

theorem c3_witness :
    ∃ a2, alGet moderateAlertSample.id
        (escalateAlert DefaultCrisisConfig 90000 moderateAlertSample initState).activeAlerts =
        some a2 ∧
      a2.level = nextLevel moderateAlertSample.level ∧
      a2.status = AlertStatus.escalated ∧
      a2.escalations = moderateAlertSample.escalations ++
        [{ fromLevel := moderateAlertSample.level,
           toLevel := nextLevel moderateAlertSample.level,
           reason := "Response deadline exceeded", timestamp := 90000,
           triggeredBy := "auto" }] ∧
      a2.responseDeadline = 90000 + 3600 ∧
      nextLevel CrisisLevel.moderate = CrisisLevel.elevated ∧
      nextLevel CrisisLevel.elevated = CrisisLevel.urgent ∧
      nextLevel CrisisLevel.urgent = CrisisLevel.immediate ∧
      nextLevel CrisisLevel.immediate = CrisisLevel.immediate :=
  escalateAlert_next_tier DefaultCrisisConfig 90000 moderateAlertSample initState 3600
    (by decide) (by decide) (by decide) (by decide)

def c4Ops : List (Nat × Op) :=
  [(0, Op.analyze "a4" "sos" sampleCtx (Except.ok (sampleResponse CrisisLevel.moderate))
      (Except.error "down")),
   (90000, Op.escalationTick)]

def c4EscRecord : Escalation :=
  { fromLevel := CrisisLevel.moderate, toLevel := CrisisLevel.elevated,
    reason := "Response deadline exceeded", timestamp := 90000, triggeredBy := "auto" }

def c4AlertEscalated : CrisisAlert :=
  { id := "a4", userID := "u1", sessionID := "s1",
    level := CrisisLevel.moderate, confidenceScore := 1, triggerMessage := "sos",
    detectedPatterns := ["pattern"], clinicalContext := [], timestamp := 0,
    responseDeadline := 86400, status := AlertStatus.escalated, assignedTo := [],
    acknowledgments := [], escalations := [c4EscRecord] }

def c4Entry : String × StoredEntry :=
  ("a4", { alert := c4AlertEscalated, expiresAt := 694800 })

theorem c4_witness :
    alGet "a4" (run DefaultCrisisConfig c4Ops initState).redisStore = some c4Entry.2 ∧
    (List.Chain' (fun e1 e2 => levelRank e1.toLevel ≤ levelRank e2.fromLevel)
      c4Entry.2.alert.escalations ∧
    ∀ e ∈ c4Entry.2.alert.escalations,
      levelRank e.fromLevel ≤ levelRank e.toLevel ∧
      (e.triggeredBy = "auto" → e.fromLevel ≠ CrisisLevel.immediate →
        levelRank e.fromLevel < levelRank e.toLevel)) :=
  ⟨by decide,
    (escalation_history_monotone DefaultCrisisConfig c4Ops).1 c4Entry
      (mem_of_alGet (by decide :
        alGet "a4" (run DefaultCrisisConfig c4Ops initState).redisStore = some c4Entry.2))⟩

theorem c5_witness :
    GetAlert 10 "a2" (storeAlert 0 moderateAlertSample initState) =
      Except.ok moderateAlertSample ∧
    ((AcknowledgeAlert 10 "a2" "doc1" "physician" "ok"
        (storeAlert 0 moderateAlertSample initState) =
      Except.error "alert is not in an acknowledgeable state") ↔
      ¬(moderateAlertSample.status = AlertStatus.active ∨
        moderateAlertSample.status = AlertStatus.acknowledged)) :=
  ⟨by decide,
    (acknowledgeAlert_state_rules 10 20 "a2" "doc1" "physician" "ok" "doc2" "physician"
      "fine" (storeAlert 0 moderateAlertSample initState) moderateAlertSample
      (by decide)).1⟩

theorem c6_witness :
    GetAlert 10 "a1" resolvedStateSample = Except.ok resolvedAlertSample ∧
    (∃ st1, ResolveAlert 10 "a1" "u2" "again" resolvedStateSample = Except.ok st1 ∧
      (∃ e, alGet resolvedAlertSample.id st1.redisStore = some e ∧
        e.alert.status = AlertStatus.resolved) ∧
      alGet "a1" st1.activeAlerts = Option.none) :=
  ⟨by decide,
    resolveAlert_succeeds_on_any_existing 10 "a1" "u2" "again" resolvedStateSample
      resolvedAlertSample (by decide)⟩

def c7Ops0 : List (Nat × Op) :=
  [(0, Op.analyze "a7" "sos" sampleCtx (Except.ok (sampleResponse CrisisLevel.moderate))
      (Except.error "down"))]

def c7St1 : ServiceState :=
  match ResolveAlert 50 "a7" "doc" "stable" (run DefaultCrisisConfig c7Ops0 initState) with
  | Except.ok s => s
  | Except.error _ => initState

theorem c7_witness :
    ResolveAlert 50 "a7" "doc" "stable" (run DefaultCrisisConfig c7Ops0 initState) =
      Except.ok c7St1 ∧
    (∀ now1, now1 < 50 + alertTTL →
      ∃ a, GetAlert now1 "a7" c7St1 = Except.ok a ∧ a.status = AlertStatus.resolved) :=
  ⟨by decide,
    (resolved_alert_hidden_until_ttl DefaultCrisisConfig c7Ops0 []
      (run DefaultCrisisConfig c7Ops0 initState) c7St1 50 "a7" "doc" "stable" rfl
      (by decide) (fun q hq => absurd hq (List.not_mem_nil q))).2.1⟩

theorem c9_witness :
    AnalyzeMessage DefaultCrisisConfig 0 "a9" "hi" sampleCtx
      (Except.ok (sampleResponse CrisisLevel.none)) (Except.error "x") initState =
      Except.ok (Option.none, initState) :=
  (analyzeMessage_failure_and_none DefaultCrisisConfig 0 "a9" "hi" sampleCtx
    (Except.ok (sampleResponse CrisisLevel.none)) (Except.error "x") initState).2.1
    (sampleResponse CrisisLevel.none) rfl rfl

def c10Ops : List (Nat × Op) :=
  [(0, Op.analyze "a10" "sos" sampleCtx (Except.ok (sampleResponse CrisisLevel.moderate))
      (Except.error "down"))]

def c10Alert : CrisisAlert :=
  { id := "a10", userID := "u1", sessionID := "s1", level := CrisisLevel.moderate,
    confidenceScore := 1, triggerMessage := "sos", detectedPatterns := ["pattern"],
    clinicalContext := [], timestamp := 0, responseDeadline := 86400,
    status := AlertStatus.active, assignedTo := [], acknowledgments := [],
    escalations := [] }

theorem c10_witness :
    alGet "a10" (run DefaultCrisisConfig c10Ops initState).activeAlerts = some c10Alert ∧
    c10Alert.status = AlertStatus.active ∧
    alGet "a10" (checkEscalations DefaultCrisisConfig 90000
        (run DefaultCrisisConfig c10Ops initState)).redisStore =
      some { alert := escalatedStoredAlert 90000 c10Alert, expiresAt := 90000 + alertTTL } :=
  ⟨by decide, by decide,
    (escalation_is_terminal DefaultCrisisConfig c10Ops
      (run DefaultCrisisConfig c10Ops initState) "a10" c10Alert 90000 100000 100000 rfl
      (by decide) (by decide) (by decide) (by decide)).2.1⟩

end Crisis
